import Mathlib

/-!
Verification of the littlefish utility library against its specification.

Each Python module relevant to the claims is shallowly embedded below:

* `celeryutil.non_overlapping` (non-blocking branch) - the try/finally wrapper
  around the Redis task lock, with an explicit event trace.
* `redisutil.multi_key_lock` - the multi-key context manager, with an explicit
  acquire/release event trace.
* `pager.Pager.__init__` - the paging index arithmetic (Python `//` is floor
  division, embedded as `Int.fdiv`; Python slices of lists with non-negative
  bounds are embedded as `drop`/`take`).
* `imageutil.resize_image_to_fit` / `resize_crop_image` - the geometric
  arithmetic, embedded over `ℚ` (the source uses Python floats; all claims are
  about the exact arithmetic, and Python `int()` on the non-negative values
  appearing here is rational floor, with truncation-toward-zero kept for
  negative values).
* `yamldata.import_model` - the full upsert routine, with the database
  modelled as a list of attribute maps and effects (query / session.add /
  setattr) recorded explicitly.
* `contentscanner.scan_for_sitemap` - the sitemap filter over scan results.
-/

/-! ## Common: Python values and dictionaries

Python dictionaries keep insertion order; they are embedded as association
lists. `slookup` is `dict.get` / `getattr`, `aset` is `setattr` (replace the
binding in place if present, append otherwise).
-/

/-- A Python value as it occurs in this library (yaml scalars / model
attributes). -/
inductive Value : Type where
  | vnone : Value
  | vbool : Bool → Value
  | vint : Int → Value
  | vstr : String → Value
deriving DecidableEq, Repr

/-- Python truthiness for `Value`. -/
def Value.truthy : Value → Bool
  | Value.vnone => false
  | Value.vbool b => b
  | Value.vint n => n != 0
  | Value.vstr s => s != ""

/-- Python `str()` of a `Value`. -/
def pyStr : Value → String
  | Value.vnone => "None"
  | Value.vbool true => "True"
  | Value.vbool false => "False"
  | Value.vint n => toString n
  | Value.vstr s => s

/-- Substring test on character lists: does the needle occur contiguously in
the haystack? -/
def charsSub : List Char → List Char → Bool
  | needle, [] => needle.isEmpty
  | needle, c :: rest => needle.isPrefixOf (c :: rest) || charsSub needle rest

/-- Python `needle in hay` for strings (contiguous substring test). -/
def strIn (needle hay : String) : Bool := charsSub needle.data hay.data

/-- Lookup in an association list with string keys (first binding wins, as in
a Python dict, whose keys are unique). -/
def slookup {β : Type} : List (String × β) → String → Option β
  | [], _ => none
  | (k, v) :: rest, key => if k = key then some v else slookup rest key

/-- Python `setattr` / dict assignment on an association list: replace the
first binding of the key, or append a new binding. -/
def aset {β : Type} : List (String × β) → String → β → List (String × β)
  | [], k, v => [(k, v)]
  | (k1, v1) :: rest, k, v =>
    if k1 = k then (k, v) :: rest else (k1, v1) :: aset rest k v

/-! ## celeryutil.non_overlapping (blocking=False branch)

The wrapper body is:

    return_value = None
    raised_exception = None
    has_lock = None
    try:
        has_lock = lock.acquire(blocking=False)
        if has_lock:
            return_value = f(*args, **kwargs)
        else:
            log.info("Aborting task - already running")
    except Exception as e:
        raised_exception = e
    finally:
        if has_lock:
            lock.release()
        if raised_exception:
            raise raised_exception
        return return_value

The lock acquire is modelled as `Except ε Bool` (it may itself raise), the
task body as `Except ε α`.  The wrapper returns the outcome together with the
trace of lock/task events, in order.
-/

/-- Events produced by the non-blocking `non_overlapping` wrapper. -/
inductive TaskEvent : Type where
  | tryAcquire : Bool → TaskEvent
  | callF : TaskEvent
  | releaseLock : TaskEvent
deriving DecidableEq, Repr, BEq

/-- The non-blocking branch of `celeryutil.non_overlapping`: the try block
computes `(return_value, raised_exception, has_lock)` exactly as the Python
does (`has_lock` starts as `None`), then the finally block releases the lock
when `has_lock` is truthy and re-raises any caught exception. -/
def non_overlapping_nonblocking {α ε : Type} (acquire : Except ε Bool)
    (f : Except ε α) : Except ε (Option α) × List TaskEvent :=
  let st : Option α × Option ε × Option Bool × List TaskEvent :=
    match acquire with
    | Except.error e => (none, some e, none, [])
    | Except.ok b =>
      if b then
        match f with
        | Except.ok v =>
          (some v, none, some true, [TaskEvent.tryAcquire true, TaskEvent.callF])
        | Except.error e =>
          (none, some e, some true, [TaskEvent.tryAcquire true, TaskEvent.callF])
      else (none, none, some false, [TaskEvent.tryAcquire false])
  match st with
  | (return_value, raised_exception, has_lock, evs) =>
    let evs2 := if has_lock = some true then evs ++ [TaskEvent.releaseLock] else evs
    match raised_exception with
    | some e => (Except.error e, evs2)
    | none => (Except.ok return_value, evs2)

/-! ## redisutil.multi_key_lock -/

/-- The `keys` argument of `multi_key_lock`: Python lets a single string
through the same parameter, and the function rejects it explicitly. -/
inductive KeysArg : Type where
  | single : String → KeysArg
  | keyList : List String → KeysArg

/-- Lock acquire/release events, carrying the Redis lock name. -/
inductive RedisEvent : Type where
  | acq : String → RedisEvent
  | rel : String → RedisEvent
deriving DecidableEq, Repr, BEq

/-- `redisutil.format_key`: prepend the global key prefix. -/
def format_key (globalPfx : String) (name : String) : String := globalPfx ++ name

/-- `redisutil.multi_key_lock` as a function of the body outcome: raise
ValueError on a single string or on duplicate keys (acquiring nothing), else
sort the keys, acquire one lock per key in sorted order, run the body, and in
the finally block release the locks in reverse order (also when the body
raises, in which case the exception propagates afterwards). -/
def multi_key_lock {α ε : Type} (globalPfx : String) (keys : KeysArg)
    (body : Except ε α) : Except (String ⊕ ε) α × List RedisEvent :=
  match keys with
  | KeysArg.single _ =>
    (Except.error (Sum.inl "You cant pass a single string into this function!"), [])
  | KeysArg.keyList ks =>
    if ks.length ≠ ks.dedup.length then
      (Except.error (Sum.inl "The passed in keyset contains duplicates"), [])
    else
      let sortedKeys := List.insertionSort (fun a b : String => a ≤ b) ks
      let acqEvents := sortedKeys.map (fun k => RedisEvent.acq (format_key globalPfx k))
      let relEvents := sortedKeys.reverse.map (fun k => RedisEvent.rel (format_key globalPfx k))
      match body with
      | Except.ok a => (Except.ok a, acqEvents ++ relEvents)
      | Except.error e => (Except.error (Sum.inr e), acqEvents ++ relEvents)

/-! ## pager.Pager.__init__

`page_number` arrives as user input; `int(page_number)` either parses or
raises ValueError, embedded as `Option Int` (`none` = non-numeric).  The
`total_items` keyword argument is tested for Python truthiness (`None` and `0`
are both falsy).  The query is a list; `query.count()` of the SQLAlchemy case
is out of scope.  Python `//` is `Int.fdiv`, and `query[a : a + ps]` for
`a ≥ 0`, `ps ≥ 0` is `(query.drop a).take ps`.
-/

/-- The attributes `Pager.__init__` assigns. -/
structure PagerState (α : Type) where
  page_size : Int
  page_number : Int
  total_items : Int
  total_pages : Int
  offset : Int
  items : List α
deriving Repr

/-- `pager.Pager.__init__` on a list query. -/
def pagerInit {α : Type} (page_size : Int) (page_number_raw : Option Int)
    (query : List α) (total_items_arg : Option Int) : PagerState α :=
  let pn1 : Int := match page_number_raw with
    | none => 1
    | some n => n
  let pn2 : Int := if pn1 < 1 then 1 else pn1
  let ti : Int := match total_items_arg with
    | some t => if t ≠ 0 then t else (query.length : Int)
    | none => (query.length : Int)
  let tp : Int := (ti - 1).fdiv page_size + 1
  let pn3 : Int := if pn2 > tp then tp else pn2
  let off0 : Int := page_size * (pn3 - 1)
  let off : Int := if off0 < 0 then 1 else off0
  { page_size := page_size
    page_number := pn3
    total_items := ti
    total_pages := tp
    offset := off
    items := (query.drop off.toNat).take page_size.toNat }

/-- `Pager.has_prev`. -/
def PagerState.has_prev {α : Type} (p : PagerState α) : Bool :=
  decide (1 < p.page_number)

/-- `Pager.has_next`. -/
def PagerState.has_next {α : Type} (p : PagerState α) : Bool :=
  decide (p.page_number < p.total_pages)

/-- `Pager.empty`. -/
def PagerState.empty {α : Type} (p : PagerState α) : Bool :=
  decide (p.total_pages = 0)

/-! ## imageutil

The source computes over Python floats; the claims concern the exact
geometry, so the embedding computes over `ℚ`.  Python `int()` truncates
toward zero; every value it is applied to in the claims below is
non-negative, where truncation is the floor.
-/

/-- Python `int()` on a rational: truncation toward zero. -/
def pyIntQ (q : ℚ) : Int := if 0 ≤ q then ⌊q⌋ else ⌈q⌉

/-- `imageutil.resize_image_to_fit`: returns the pixel dimensions
`(int(scaled_w), int(scaled_h))` of the resized image. -/
def resize_image_to_fit (src_w src_h dest_w dest_h : ℕ) : Int × Int :=
  let dw : ℚ := dest_w
  let dh : ℚ := dest_h
  let dest_ratio : ℚ := dw / dh
  let sw : ℚ := src_w
  let sh : ℚ := src_h
  let src_ratio : ℚ := sw / sh
  if src_ratio < dest_ratio then
    let scale := dh / sh
    let scaled_h := dh
    let scaled_w := sw * scale
    (pyIntQ scaled_w, pyIntQ scaled_h)
  else
    let scale := dw / sw
    let scaled_w := dw
    let scaled_h := sh * scale
    (pyIntQ scaled_w, pyIntQ scaled_h)

/-- The last three branches of `resize_crop_image`, shared by the tall and
wide cases: PIL `crop` returns an image exactly the size of the crop box, or
the original image is returned unchanged in the final else branch. -/
def crop_branch_dims (src_w src_h dest_w dest_h : ℕ)
    (scaled_w scaled_h left top right bottom : ℚ) : Int × Int :=
  if src_w > dest_w ∨ src_h > dest_h then
    (pyIntQ right - pyIntQ left, pyIntQ bottom - pyIntQ top)
  else if scaled_w < (src_w : ℚ) ∨ scaled_h < (src_h : ℚ) then
    (pyIntQ right - pyIntQ left, pyIntQ bottom - pyIntQ top)
  else
    ((src_w : Int), (src_h : Int))

/-- `imageutil.resize_crop_image`: returns the pixel dimensions of the result.
The Python float literal `0.66` in the pad_when_tall test is embedded as the
rational `33/50`; `resize_pad_image` always produces an image of exactly
`(int(dest_w), int(dest_h))` (it is created by `PIL.Image.new`). -/
def resize_crop_image (src_w src_h dest_w dest_h : ℕ) (pad_when_tall : Bool)
    (dest_top dest_left : Option ℚ) : Int × Int :=
  let dw : ℚ := dest_w
  let dh : ℚ := dest_h
  let dest_ratio : ℚ := dw / dh
  let sw : ℚ := src_w
  let sh : ℚ := src_h
  let src_ratio : ℚ := sw / sh
  if src_ratio < dest_ratio then
    let scale := dw / sw
    let scaled_w := dw
    let scaled_h := sh * scale
    let left : ℚ := 0
    let right : ℚ := dw
    let top : ℚ := match dest_top with
      | none => (scaled_h - dh) / 2
      | some t => if t < 0 then 0 else if t > scaled_h - dh then scaled_h - dh else t
    let bottom : ℚ := top + dh
    if pad_when_tall ∧ bottom - top < scaled_h * (33 / 50) then
      ((dest_w : Int), (dest_h : Int))
    else
      crop_branch_dims src_w src_h dest_w dest_h scaled_w scaled_h left top right bottom
  else
    let scale := dh / sh
    let scaled_h := dh
    let scaled_w := sw * scale
    let left : ℚ := match dest_left with
      | none => (scaled_w - dw) / 2
      | some t => if t < 0 then 0 else if t > scaled_w - dw then scaled_w - dw else t
    let right : ℚ := left + dw
    let top : ℚ := 0
    let bottom : ℚ := dh
    if pad_when_tall ∧ bottom - top < scaled_h * (33 / 50) then
      ((dest_w : Int), (dest_h : Int))
    else
      crop_branch_dims src_w src_h dest_w dest_h scaled_w scaled_h left top right bottom

/-! ## yamldata.import_model

The database is a list of model instances; a model instance is its attribute
map.  `import_model` is split at the `model_class.query.filter(...)` call:
`import_model_pre` is everything before the query (all validation), then the
filters are built, the query runs (`one_or_none`), and `import_model_post` is
the insert/update tail.  Effects on the session are recorded explicitly.
-/

/-- A model instance: its attribute map. -/
abbrev Inst := List (String × Value)

/-- A parsed yaml file: a dict mapping field name to value. -/
abbrev YamlDict := List (String × Value)

/-- `yamldata.DataType`.  `IGNORE` is a distinguished object compared by
identity in the source (`field.data_type == IGNORE`), embedded as the
`is_ignore` flag. -/
structure DataType : Type where
  name : String
  from_yaml : Value → Except String Value
  constant_value : Option Value := none
  is_ignore : Bool := false

/-- `yamldata.RAW`. -/
def RAW : DataType := { name := "!RAW!", from_yaml := fun v => Except.ok v }

/-- `yamldata.IGNORE`. -/
def IGNORE : DataType :=
  { name := "!IGNORE!", from_yaml := fun v => Except.ok v, is_ignore := true }

/-- `yamldata.CONSTANT`: a constant value of `None` is rejected. -/
def CONSTANT (value : Value) : Except String DataType :=
  if value = Value.vnone then Except.error "Constant value cant be None!"
  else Except.ok { name := "!CONSTANT!", from_yaml := fun v => Except.ok v,
                   constant_value := some value }

/-- `yamldata.load_single_line_str`: `str(s)`, rejected if it contains a
newline. -/
def load_single_line_str (v : Value) : Except String Value :=
  let s := pyStr v
  if strIn "\n" s then
    Except.error ("String value " ++ s ++ " contains newline character")
  else Except.ok (Value.vstr s)

/-- `yamldata.STR`. -/
def STR : DataType := { name := "str", from_yaml := load_single_line_str }

/-- `yamldata.load_int` (the source also rejects floats, which the `Value`
embedding does not contain; `int()` of a bool and of a numeric string follow
Python). -/
def load_int (v : Value) : Except String Value :=
  match v with
  | Value.vint n => Except.ok (Value.vint n)
  | Value.vbool b => Except.ok (Value.vint (if b then 1 else 0))
  | Value.vstr s =>
    match s.toInt? with
    | some n => Except.ok (Value.vint n)
    | none => Except.error ("invalid literal for int: " ++ s)
  | Value.vnone => Except.error "int of None"

/-- `yamldata.INT`. -/
def INT : DataType := { name := "int", from_yaml := load_int }

/-- `yamldata.load_boolean`. -/
def load_boolean (v : Value) : Except String Value :=
  match v with
  | Value.vbool b => Except.ok (Value.vbool b)
  | _ => Except.error ("Boolean required, got " ++ pyStr v)

/-- `yamldata.BOOLEAN`. -/
def BOOLEAN : DataType := { name := "bool", from_yaml := load_boolean }

/-- Python truthiness of an optional value (`None` is falsy). -/
def truthyOpt (o : Option Value) : Bool :=
  match o with
  | none => false
  | some v => v.truthy

/-- `yamldata.ImportField`.  `default` is `None` when not given;
`python_name_arg` is the optional `python_name` constructor argument. -/
structure ImportField : Type where
  name : String
  data_type : DataType
  constructor_field : Bool := true
  identifier : Bool := false
  optional : Bool := false
  default : Value := Value.vnone
  unchangeable : Bool := false
  no_update : Bool := false
  python_name_arg : Option String := none

/-- `ImportField.python_name`: the override when truthy, else the yaml
name. -/
def ImportField.python_name (f : ImportField) : String :=
  match f.python_name_arg with
  | some s => if s = "" then f.name else s
  | none => f.name

/-- `ImportField.constant_value`. -/
def ImportField.constant_value (f : ImportField) : Option Value :=
  f.data_type.constant_value

/-- `ImportField.from_yaml`: convert, wrapping any error message. -/
def ImportField.field_from_yaml (f : ImportField) (v : Value) : Except String Value :=
  match f.data_type.from_yaml v with
  | Except.ok r => Except.ok r
  | Except.error e => Except.error ("Error reading field " ++ f.name ++ ": " ++ e)

/-- The duplicate-field check at the top of `import_model`, with the yaml
names and python names seen so far. -/
def check_duplicate_fields : List String → List String → List ImportField →
    Except String Unit
  | _, _, [] => Except.ok ()
  | seen_names, seen_python, field :: rest =>
    if field.name ∈ seen_names then
      Except.error ("Multiple fields in list with same name " ++ field.name)
    else if field.python_name ∈ seen_python then
      Except.error ("Miltiple fields in list with same python name " ++ field.python_name)
    else
      check_duplicate_fields (field.name :: seen_names)
        (field.python_name :: seen_python) rest

/-- The `data` dict built by `import_model`: constants, present yaml values
(converted unless `None`), and defaults of absent optional fields, in field
order; `IGNORE` fields are skipped, and a field that is absent, required and
non-constant is simply left out at this stage. -/
def build_data (yaml : YamlDict) : List ImportField →
    Except String (List (String × Value))
  | [] => Except.ok []
  | field :: rest =>
    if field.data_type.is_ignore then build_data yaml rest
    else
      let entry : Except String (Option (String × Value)) :=
        if truthyOpt field.constant_value then
          Except.ok (some (field.name, field.constant_value.getD Value.vnone))
        else
          match slookup yaml field.name with
          | some raw =>
            if raw = Value.vnone then Except.ok (some (field.name, Value.vnone))
            else
              match field.field_from_yaml raw with
              | Except.ok v => Except.ok (some (field.name, v))
              | Except.error e => Except.error e
          | none =>
            if field.optional then Except.ok (some (field.name, field.default))
            else Except.ok none
      match entry with
      | Except.error e => Except.error e
      | Except.ok none => build_data yaml rest
      | Except.ok (some kv) =>
        match build_data yaml rest with
        | Except.error e => Except.error e
        | Except.ok tail => Except.ok (kv :: tail)

/-- The identifier check: every identifier python name must be a key of
`data` (the source checks the python names against the yaml-named dict). -/
def check_identifier_keys (data : List (String × Value))
    (id_keys : List (String × String)) : Except String Unit :=
  match id_keys.find? (fun kv => (slookup data kv.2).isNone) with
  | some kv => Except.error ("Indentifier field " ++ kv.2 ++ " not present in data")
  | none => Except.ok ()

/-- The required-field check: every non-constant, non-optional field name
must be a key of the yaml dict. -/
def check_required_fields (model_name identifier : String)
    (required_field_keys : List String) (yaml : YamlDict) : Except String Unit :=
  match required_field_keys.find? (fun k => (slookup yaml k).isNone) with
  | some k =>
    Except.error ("Required field " ++ k ++ " not present in " ++ model_name
      ++ " " ++ identifier)
  | none => Except.ok ()

/-- The unknown-field check: every yaml key must be a declared non-constant
field name. -/
def check_unknown_fields (model_name identifier : String)
    (all_field_keys : List String) (yaml : YamlDict) : Except String Unit :=
  match (yaml.map Prod.fst).find? (fun k => !(all_field_keys.contains k)) with
  | some k =>
    Except.error ("Unknown field " ++ k ++ " found in " ++ model_name
      ++ " " ++ identifier)
  | none => Except.ok ()

/-- The validated output of the part of `import_model` before the database
query. -/
structure PreData : Type where
  data : List (String × Value)
  identifier_keys : List (String × String)
  identifier : String
deriving DecidableEq, Repr

/-- Everything `import_model` does before `model_class.query.filter`:
duplicate check, data building, identifier presence check, identifier string,
required-field and unknown-field validation. -/
def import_model_pre (model_name : String) (fields : List ImportField)
    (yaml : YamlDict) : Except String PreData :=
  match check_duplicate_fields [] [] fields with
  | Except.error e => Except.error e
  | Except.ok () =>
    match build_data yaml fields with
    | Except.error e => Except.error e
    | Except.ok data =>
      let id_keys := fields.filterMap
        (fun f => if f.identifier then some (f.name, f.python_name) else none)
      match check_identifier_keys data id_keys with
      | Except.error e => Except.error e
      | Except.ok () =>
        let identifier := String.intercalate "/"
          (id_keys.map (fun kv => pyStr ((slookup data kv.2).getD Value.vnone)))
        let all_field_keys :=
          (fields.filter (fun f => !truthyOpt f.constant_value)).map (fun f => f.name)
        let required_field_keys :=
          (fields.filter (fun f => !truthyOpt f.constant_value && !f.optional)).map
            (fun f => f.name)
        match check_required_fields model_name identifier required_field_keys yaml with
        | Except.error e => Except.error e
        | Except.ok () =>
          match check_unknown_fields model_name identifier all_field_keys yaml with
          | Except.error e => Except.error e
          | Except.ok () =>
            Except.ok { data := data, identifier_keys := id_keys, identifier := identifier }

/-- The SQLAlchemy filter list: for each identifier field, the pair of its
python name and `data[yaml_key]` (a `KeyError` if the yaml key is absent from
`data`, which the source checks only for python names). -/
def build_filters (data : List (String × Value)) :
    List (String × String) → Except String (List (String × Value))
  | [] => Except.ok []
  | kv :: rest =>
    match slookup data kv.1 with
    | none => Except.error ("KeyError: " ++ kv.1)
    | some v =>
      match build_filters data rest with
      | Except.error e => Except.error e
      | Except.ok tail => Except.ok ((kv.2, v) :: tail)

/-- Does an instance satisfy every identifier filter? -/
def matches_filters (filters : List (String × Value)) (inst : Inst) : Bool :=
  filters.all (fun kv => decide (slookup inst kv.1 = some kv.2))

/-- `query.filter(*filters).one_or_none()` over the database list. -/
def one_or_none (db : List Inst) (filters : List (String × Value)) :
    Except String (Option Inst) :=
  match db.filter (matches_filters filters) with
  | [] => Except.ok none
  | [i] => Except.ok (some i)
  | _ :: _ :: _ => Except.error "MultipleResultsFound"

/-- The constructor kwargs, the update fields and the unchangeable python
names collected by the loop after the query. -/
structure FieldDicts : Type where
  kwargs : List (String × Value)
  update_fields : List (String × Value)
  unchangeable_fields : List String
deriving DecidableEq, Repr

/-- The loop building `kwargs` / `update_fields` / `unchangeable_fields`:
`IGNORE` fields are skipped; every other field must be present in `data`;
when inserting, constructor fields go to `kwargs`, and otherwise
non-identifier, non-`no_update` fields go to `update_fields`. -/
def build_field_dicts (data : List (String × Value)) (updating : Bool) :
    List ImportField → Except String FieldDicts
  | [] => Except.ok { kwargs := [], update_fields := [], unchangeable_fields := [] }
  | field :: rest =>
    if field.data_type.is_ignore then build_field_dicts data updating rest
    else
      match slookup data field.name with
      | none => Except.error "Required field not present in data dic"
      | some value =>
        match build_field_dicts data updating rest with
        | Except.error e => Except.error e
        | Except.ok d =>
          let d1 := if field.unchangeable then
              { d with unchangeable_fields := field.python_name :: d.unchangeable_fields }
            else d
          if !updating && field.constructor_field then
            Except.ok { d1 with kwargs := (field.python_name, value) :: d1.kwargs }
          else if !field.identifier && !field.no_update then
            Except.ok { d1 with update_fields := (field.python_name, value) :: d1.update_fields }
          else
            Except.ok d1

/-- The update loop at the end of `import_model`: for each update field, when
updating compare the old attribute value (raising on a changed unchangeable
field), then `setattr`.  Returns the final instance and the list of performed
`setattr`s (also on error, for the ones already done). -/
def apply_updates (updating : Bool) (unchangeable_fields : List String) :
    Inst → List (String × Value) → Except String Inst × List (String × Value)
  | inst, [] => (Except.ok inst, [])
  | inst, (pname, new_val) :: rest =>
    let check : Except String Unit :=
      if updating then
        match slookup inst pname with
        | none => Except.error ("AttributeError: " ++ pname)
        | some old_val =>
          if old_val ≠ new_val ∧ pname ∈ unchangeable_fields then
            Except.error "Trying to change unchangeable field"
          else Except.ok ()
      else Except.ok ()
    match check with
    | Except.error e => (Except.error e, [])
    | Except.ok () =>
      match apply_updates updating unchangeable_fields (aset inst pname new_val) rest with
      | (res, done) => (res, (pname, new_val) :: done)

/-- The effects of an `import_model` call on the session and the model
instance: whether the database was queried, whether a new instance was added
to the session, and the `setattr`s performed. -/
structure Effects : Type where
  queried : Bool := false
  added : Bool := false
  setattrs : List (String × Value) := []
deriving DecidableEq, Repr

/-- Everything `import_model` does after the query: the insert-only early
return, the field-dict loop, the construction of a new instance
(`model_class(**kwargs)` plus `session.add`) when none was found, and the
update loop. -/
def import_model_post (fields : List ImportField) (pre : PreData)
    (existing : Option Inst) (insert_only : Bool) : Except String Inst × Effects :=
  let updating := existing.isSome
  if updating && insert_only then
    (Except.ok (existing.getD []), {})
  else
    match build_field_dicts pre.data updating fields with
    | Except.error e => (Except.error e, {})
    | Except.ok d =>
      let inst0 : Inst := match existing with
        | some i => i
        | none => d.kwargs
      let added : Bool := existing.isNone
      match apply_updates updating d.unchangeable_fields inst0 d.update_fields with
      | (res, done) => (res, { added := added, setattrs := done })

/-- `yamldata.import_model` over a database of instances.  The returned
`Effects` record whether the query ran, whether a new instance was added and
which attributes were written. -/
def import_model (model_name : String) (fields : List ImportField)
    (yaml : YamlDict) (db : List Inst) (insert_only : Bool) :
    Except String Inst × Effects :=
  match import_model_pre model_name fields yaml with
  | Except.error e => (Except.error e, {})
  | Except.ok pre =>
    match build_filters pre.data pre.identifier_keys with
    | Except.error e => (Except.error e, {})
    | Except.ok filters =>
      match one_or_none db filters with
      | Except.error e => (Except.error e, { queried := true })
      | Except.ok existing =>
        match import_model_post fields pre existing insert_only with
        | (res, eff) => (res, { eff with queried := true })

/-! ## contentscanner.scan_for_sitemap

A completed scan is a list of `ScannerResult`s; `scan_for_sitemap` filters
them (when `inspect_content` is set) and builds `SiteMapEntry`s.  The
`titlecase.titlecase` library call is a parameter.  The made-up title indexes
`endpoint.split(".")[1]`, an `IndexError` when the endpoint has no dot,
so the loop is embedded in `Except`.
-/

/-- The fields of `ScannerResult` that `scan_for_sitemap` reads, after a scan
with `inspect_content=True` (so status code and mime type are set).  The
modification time is abstract. -/
structure ScannerResult : Type where
  endpoint : String
  url : String
  status_code : Int
  mime_type : String
  title : Option String
  last_modified : Int
deriving DecidableEq, Repr

/-- `ScannerResult.is_html`: `"html" in self.mime_type`. -/
def ScannerResult.is_html (r : ScannerResult) : Bool := strIn "html" r.mime_type

/-- `contentscanner.SiteMapEntry`. -/
structure SiteMapEntry : Type where
  url : String
  modified : Int
  change_freq : String
  priority : String
  title : String
deriving DecidableEq, Repr

/-- The made-up title: `titlecase(result.endpoint.split(".")[1].replace("_", " "))`,
an `IndexError` when the endpoint contains no dot. -/
def make_up_title (tc : String → String) (endpoint : String) : Except String String :=
  match (endpoint.splitOn ".").get? 1 with
  | none => Except.error "IndexError: list index out of range"
  | some part => Except.ok (tc (part.replace "_" " "))

/-- The title used for a sitemap entry: the scanned title when truthy
(present and non-empty), else the made-up one. -/
def resolve_title (tc : String → String) (r : ScannerResult) : Except String String :=
  match r.title with
  | some t => if t = "" then make_up_title tc r.endpoint else Except.ok t
  | none => make_up_title tc r.endpoint

/-- The loop of `contentscanner.scan_for_sitemap` over the scan results:
when `inspect_content` is set, results with a non-200 status or a non-HTML
mime type are skipped; the priority is `priority_map.get(endpoint,
default_priority)`; a falsy title (absent or empty) is made up from the
endpoint name. -/
def scan_for_sitemap (tc : String → String) (priority_map : List (String × String))
    (change_freq : String) (default_priority : String) (inspect_content : Bool) :
    List ScannerResult → Except String (List SiteMapEntry)
  | [] => Except.ok []
  | r :: rest =>
    let keep : Bool := !inspect_content || (decide (r.status_code = 200) && r.is_html)
    if keep then
      let priority := (slookup priority_map r.endpoint).getD default_priority
      match resolve_title tc r with
      | Except.error e => Except.error e
      | Except.ok title =>
        match scan_for_sitemap tc priority_map change_freq default_priority
            inspect_content rest with
        | Except.error e => Except.error e
        | Except.ok tail =>
          Except.ok ({ url := r.url, modified := r.last_modified,
                       change_freq := change_freq, priority := priority,
                       title := title } :: tail)
    else
      scan_for_sitemap tc priority_map change_freq default_priority inspect_content rest

/-! ## Claims about celeryutil.non_overlapping -/

/-- C1: for a task wrapped by `non_overlapping(blocking=False)`, when the
try-acquire returns `False` the task body is never invoked and the wrapper
returns `None`; when the try-acquire returns `True` the body is invoked
exactly once and its return value is returned. -/
theorem c1_non_overlapping_discard {α ε : Type} (f : Except ε α) :
    ((non_overlapping_nonblocking (Except.ok false) f).1 = Except.ok none
      ∧ (non_overlapping_nonblocking (Except.ok false) f).2.count TaskEvent.callF = 0)
    ∧ ∀ v : α, f = Except.ok v →
        (non_overlapping_nonblocking (Except.ok true) f).1 = Except.ok (some v)
        ∧ (non_overlapping_nonblocking (Except.ok true) f).2.count TaskEvent.callF = 1 := by
  refine ⟨⟨?_, ?_⟩, ?_⟩
  · simp [non_overlapping_nonblocking]
  · simp [non_overlapping_nonblocking]
    decide
  · intro v hv
    subst hv
    constructor
    · simp [non_overlapping_nonblocking]
    · simp [non_overlapping_nonblocking]
      decide

/-- Witness for C1 at a concrete task outcome. -/
theorem c1_witness :
    (Except.ok 42 : Except String Nat) = Except.ok 42
    ∧ ((non_overlapping_nonblocking (Except.ok true) (Except.ok 42 : Except String Nat)).1
          = Except.ok (some 42)
        ∧ (non_overlapping_nonblocking (Except.ok true)
            (Except.ok 42 : Except String Nat)).2.count TaskEvent.callF = 1) :=
  ⟨rfl, (c1_non_overlapping_discard (Except.ok 42 : Except String Nat)).2 42 rfl⟩

/-- C2: for a task wrapped by `non_overlapping(blocking=False)`, if the lock
was acquired and the body raises, the wrapper releases the lock (after the
body call) and then re-raises that same exception; if the lock was not
acquired (try-acquire returned `False`, or the acquire itself raised),
release is never called. -/
theorem c2_non_overlapping_release_on_error {α ε : Type} (f : Except ε α) :
    (∀ e : ε, f = Except.error e →
      (non_overlapping_nonblocking (Except.ok true) f).1 = Except.error e
      ∧ (non_overlapping_nonblocking (Except.ok true) f).2
          = [TaskEvent.tryAcquire true, TaskEvent.callF, TaskEvent.releaseLock])
    ∧ (non_overlapping_nonblocking (Except.ok false) f).2.count TaskEvent.releaseLock = 0
    ∧ ∀ e0 : ε, (non_overlapping_nonblocking (Except.error e0) f).2.count
        TaskEvent.releaseLock = 0 := by
  refine ⟨?_, ?_, ?_⟩
  · intro e he
    subst he
    exact ⟨by simp [non_overlapping_nonblocking], by simp [non_overlapping_nonblocking]⟩
  · simp [non_overlapping_nonblocking]
    decide
  · intro e0
    simp [non_overlapping_nonblocking]

/-- Witness for C2 at a concrete raising task. -/
theorem c2_witness :
    (Except.error "boom" : Except String Nat) = Except.error "boom"
    ∧ ((non_overlapping_nonblocking (Except.ok true)
          (Except.error "boom" : Except String Nat)).1 = Except.error "boom"
        ∧ (non_overlapping_nonblocking (Except.ok true)
            (Except.error "boom" : Except String Nat)).2
          = [TaskEvent.tryAcquire true, TaskEvent.callF, TaskEvent.releaseLock]) :=
  ⟨rfl, (c2_non_overlapping_release_on_error
    (Except.error "boom" : Except String Nat)).1 "boom" rfl⟩

/-! ## Claim about redisutil.multi_key_lock -/

/-- C9: `multi_key_lock` raises ValueError on a single string and on a key
list with duplicates, acquiring nothing in either case; otherwise it acquires
one lock per key in sorted (alphabetical) key order and on exit - for any
body outcome, including a raise - releases the locks in reverse order of
acquisition. -/
theorem c9_multi_key_lock {α ε : Type} (globalPfx : String) (body : Except ε α) :
    (∀ s : String, multi_key_lock globalPfx (KeysArg.single s) body
        = (Except.error (Sum.inl "You cant pass a single string into this function!"), []))
    ∧ (∀ ks : List String, ks.length ≠ ks.dedup.length →
        (multi_key_lock globalPfx (KeysArg.keyList ks) body).2 = []
        ∧ (multi_key_lock globalPfx (KeysArg.keyList ks) body).1
            = Except.error (Sum.inl "The passed in keyset contains duplicates"))
    ∧ (∀ ks : List String, ks.length = ks.dedup.length →
        List.Perm (List.insertionSort (fun a b : String => a ≤ b) ks) ks
        ∧ (List.insertionSort (fun a b : String => a ≤ b) ks).Sorted (· ≤ ·)
        ∧ (multi_key_lock globalPfx (KeysArg.keyList ks) body).2
            = (List.insertionSort (fun a b : String => a ≤ b) ks).map
                (fun k => RedisEvent.acq (format_key globalPfx k))
              ++ ((List.insertionSort (fun a b : String => a ≤ b) ks).reverse).map
                (fun k => RedisEvent.rel (format_key globalPfx k))) := by
  refine ⟨?_, ?_, ?_⟩
  · intro s
    simp [multi_key_lock]
  · intro ks h
    cases body with
    | ok a => exact ⟨by simp [multi_key_lock, h], by simp [multi_key_lock, h]⟩
    | error e => exact ⟨by simp [multi_key_lock, h], by simp [multi_key_lock, h]⟩
  · intro ks h
    refine ⟨List.perm_insertionSort _ _, List.sorted_insertionSort _ _, ?_⟩
    have h2 : ¬ ks.length ≠ ks.dedup.length := fun hc => hc h
    cases body with
    | ok a => simp [multi_key_lock, h2]
    | error e => simp [multi_key_lock, h2]

/-- Witness for C9 at a concrete unsorted key list with a raising body. -/
theorem c9_witness :
    ((["b", "a"] : List String).length = (["b", "a"] : List String).dedup.length)
    ∧ (List.Perm (List.insertionSort (fun a b : String => a ≤ b) ["b", "a"]) ["b", "a"]
      ∧ (List.insertionSort (fun a b : String => a ≤ b) ["b", "a"]).Sorted (· ≤ ·)
      ∧ (multi_key_lock "P" (KeysArg.keyList ["b", "a"])
          (Except.error 7 : Except Nat Nat)).2
          = (List.insertionSort (fun a b : String => a ≤ b) ["b", "a"]).map
              (fun k => RedisEvent.acq (format_key "P" k))
            ++ ((List.insertionSort (fun a b : String => a ≤ b) ["b", "a"]).reverse).map
              (fun k => RedisEvent.rel (format_key "P" k))) :=
  ⟨by decide, (c9_multi_key_lock "P" (Except.error 7 : Except Nat Nat)).2.2
    ["b", "a"] (by decide)⟩

/-! ## Claims about pager.Pager -/

/-- Helper: for `1 ≤ n` and `1 ≤ ps`, the value `(n - 1).fdiv ps + 1` is at
least 1 and is the ceiling of `n / ps`. -/
theorem int_ceil_div_bounds {n ps : Int} (hps : 1 ≤ ps) (hn : 1 ≤ n) :
    ps * (((n - 1).fdiv ps + 1) - 1) < n ∧ n ≤ ps * ((n - 1).fdiv ps + 1)
    ∧ 1 ≤ (n - 1).fdiv ps + 1 := by
  rw [Int.fdiv_eq_ediv _ (by omega)]
  have h0 := Int.ediv_add_emod (n - 1) ps
  have h1 := Int.emod_nonneg (n - 1) (by omega : ps ≠ 0)
  have h2 := Int.emod_lt_of_pos (n - 1) (by omega : (0 : Int) < ps)
  have h3 : 0 ≤ (n - 1) / ps := Int.ediv_nonneg (by omega) (by omega)
  refine ⟨?_, ?_, by omega⟩
  · have h4 : ps * ((n - 1) / ps + 1 - 1) = ps * ((n - 1) / ps) := by ring
    rw [h4]
    linarith
  · have h4 : ps * ((n - 1) / ps + 1) = ps * ((n - 1) / ps) + ps := by ring
    rw [h4]
    linarith

/-- Helper: `(-1) // ps = -1` for positive `ps` (Python floor division). -/
theorem int_neg_one_fdiv {ps : Int} (hps : 1 ≤ ps) : (-1 : Int).fdiv ps = -1 := by
  rw [Int.fdiv_eq_ediv _ (by omega)]
  have h1 : ((-1 : Int)) / ps = ((ps - 1) + ps * (-1)) / ps := by
    congr 1
    ring
  rw [h1, Int.add_mul_ediv_left _ _ (by omega : ps ≠ 0),
    Int.ediv_eq_zero_of_lt (by omega) (by omega)]
  omega

/-- C5: for `page_size >= 1` and a non-empty list query with no
`total_items` override, `Pager.__init__` sets
`total_pages = (n - 1) // page_size + 1`, which is the ceiling of
`n / page_size`; clamps the page number into `[1, total_pages]` (a
non-numeric or `< 1` input becomes 1, an input `> total_pages` becomes
`total_pages`); sets `offset = page_size * (page_number - 1)`; and sets
`items` to the slice `query[offset : offset + page_size]`. -/
theorem c5_pager {α : Type} (page_size : Int) (page_number_raw : Option Int)
    (query : List α) (hps : 1 ≤ page_size) (hn : 1 ≤ (query.length : Int)) :
    (pagerInit page_size page_number_raw query none).total_pages
        = ((query.length : Int) - 1).fdiv page_size + 1
    ∧ page_size * ((pagerInit page_size page_number_raw query none).total_pages - 1)
        < (query.length : Int)
    ∧ (query.length : Int)
        ≤ page_size * (pagerInit page_size page_number_raw query none).total_pages
    ∧ (pagerInit page_size page_number_raw query none).page_number
        = min (max (page_number_raw.getD 1) 1)
            (pagerInit page_size page_number_raw query none).total_pages
    ∧ 1 ≤ (pagerInit page_size page_number_raw query none).page_number
    ∧ (pagerInit page_size page_number_raw query none).page_number
        ≤ (pagerInit page_size page_number_raw query none).total_pages
    ∧ (pagerInit page_size page_number_raw query none).offset
        = page_size * ((pagerInit page_size page_number_raw query none).page_number - 1)
    ∧ (pagerInit page_size page_number_raw query none).items
        = (query.drop (page_size
            * ((pagerInit page_size page_number_raw query none).page_number - 1)).toNat).take
            page_size.toNat := by
  obtain ⟨hb1, hb2, hb3⟩ := int_ceil_div_bounds hps hn
  have hre : pagerInit page_size page_number_raw query none
      = pagerInit page_size (some (page_number_raw.getD 1)) query none := by
    rcases page_number_raw with _ | v <;> rfl
  rw [hre]
  generalize page_number_raw.getD 1 = p1
  simp only [pagerInit]
  set t := (((query.length : Int)) - 1).fdiv page_size + 1 with ht
  set p2 : Int := if p1 < 1 then 1 else p1 with hp2
  set p3 : Int := if p2 > t then t else p2 with hp3
  have h21 : 1 ≤ p2 := by rw [hp2]; split_ifs <;> omega
  have h31 : 1 ≤ p3 := by rw [hp3]; split_ifs <;> omega
  have h3t : p3 ≤ t := by rw [hp3]; split_ifs <;> omega
  have hoff : (0 : Int) ≤ page_size * (p3 - 1) := mul_nonneg (by omega) (by omega)
  refine ⟨trivial, hb1, hb2, ?_, h31, h3t, ?_, ?_⟩
  · rw [hp3, hp2]
    split_ifs <;> omega
  · rw [if_neg (not_lt.mpr hoff)]
  · rw [if_neg (not_lt.mpr hoff)]

/-- C10: on an empty collection with no `total_items` override,
`Pager.__init__` computes `total_pages = 0` (so `empty` is true and there is
no previous or next page), clamps the page number to 0, and sets the offset
to 1 rather than 0, making `items` the empty slice `query[1 : 1 + page_size]`. -/
theorem c10_pager_empty {α : Type} (page_size : Int) (page_number_raw : Option Int)
    (hps : 1 ≤ page_size) :
    (pagerInit page_size page_number_raw ([] : List α) none).total_pages = 0
    ∧ (pagerInit page_size page_number_raw ([] : List α) none).empty = true
    ∧ (pagerInit page_size page_number_raw ([] : List α) none).has_prev = false
    ∧ (pagerInit page_size page_number_raw ([] : List α) none).has_next = false
    ∧ (pagerInit page_size page_number_raw ([] : List α) none).page_number = 0
    ∧ (pagerInit page_size page_number_raw ([] : List α) none).offset = 1
    ∧ (pagerInit page_size page_number_raw ([] : List α) none).items = [] := by
  have hre : pagerInit page_size page_number_raw ([] : List α) none
      = pagerInit page_size (some (page_number_raw.getD 1)) ([] : List α) none := by
    rcases page_number_raw with _ | v <;> rfl
  rw [hre]
  generalize page_number_raw.getD 1 = p1
  have hfd : ((((([] : List α).length : Int)) - 1).fdiv page_size + 1) = 0 := by
    have h := int_neg_one_fdiv hps
    simp only [List.length_nil, Nat.cast_zero]
    rw [show ((0 : Int) - 1) = -1 by norm_num, h]
    norm_num
  simp only [pagerInit, PagerState.empty, PagerState.has_prev, PagerState.has_next]
  simp only [hfd]
  set p2 : Int := if p1 < 1 then 1 else p1 with hp2
  have h21 : 1 ≤ p2 := by rw [hp2]; split_ifs <;> omega
  have h30 : (if p2 > 0 then (0 : Int) else p2) = 0 := by split_ifs <;> omega
  simp only [h30]
  have hneg : page_size * ((0 : Int) - 1) < 0 := by
    have : page_size * ((0 : Int) - 1) = -page_size := by ring
    rw [this]
    omega
  rw [if_pos hneg]
  exact ⟨trivial, by decide, by decide, by decide, trivial, rfl, by simp⟩

/-- Witness for C5 at `page_size = 2`, requested page 5, three items. -/
theorem c5_witness :
    ((1 : Int) ≤ 2 ∧ (1 : Int) ≤ (([10, 11, 12] : List ℕ).length : Int))
    ∧ ((pagerInit 2 (some 5) ([10, 11, 12] : List ℕ) none).total_pages
          = ((([10, 11, 12] : List ℕ).length : Int) - 1).fdiv 2 + 1
        ∧ 2 * ((pagerInit 2 (some 5) ([10, 11, 12] : List ℕ) none).total_pages - 1)
            < (([10, 11, 12] : List ℕ).length : Int)
        ∧ (([10, 11, 12] : List ℕ).length : Int)
            ≤ 2 * (pagerInit 2 (some 5) ([10, 11, 12] : List ℕ) none).total_pages
        ∧ (pagerInit 2 (some 5) ([10, 11, 12] : List ℕ) none).page_number
            = min (max ((some (5 : Int)).getD 1) 1)
                (pagerInit 2 (some 5) ([10, 11, 12] : List ℕ) none).total_pages
        ∧ 1 ≤ (pagerInit 2 (some 5) ([10, 11, 12] : List ℕ) none).page_number
        ∧ (pagerInit 2 (some 5) ([10, 11, 12] : List ℕ) none).page_number
            ≤ (pagerInit 2 (some 5) ([10, 11, 12] : List ℕ) none).total_pages
        ∧ (pagerInit 2 (some 5) ([10, 11, 12] : List ℕ) none).offset
            = 2 * ((pagerInit 2 (some 5) ([10, 11, 12] : List ℕ) none).page_number - 1)
        ∧ (pagerInit 2 (some 5) ([10, 11, 12] : List ℕ) none).items
            = (([10, 11, 12] : List ℕ).drop
                (2 * ((pagerInit 2 (some 5) ([10, 11, 12] : List ℕ) none).page_number
                  - 1)).toNat).take (2 : Int).toNat) :=
  ⟨⟨by decide, by decide⟩,
    c5_pager 2 (some 5) ([10, 11, 12] : List ℕ) (by decide) (by decide)⟩

/-- Witness for C10 at `page_size = 3` and a non-numeric page number. -/
theorem c10_witness :
    ((1 : Int) ≤ 3)
    ∧ ((pagerInit 3 none ([] : List ℕ) none).total_pages = 0
      ∧ (pagerInit 3 none ([] : List ℕ) none).empty = true
      ∧ (pagerInit 3 none ([] : List ℕ) none).has_prev = false
      ∧ (pagerInit 3 none ([] : List ℕ) none).has_next = false
      ∧ (pagerInit 3 none ([] : List ℕ) none).page_number = 0
      ∧ (pagerInit 3 none ([] : List ℕ) none).offset = 1
      ∧ (pagerInit 3 none ([] : List ℕ) none).items = []) :=
  ⟨by decide, c10_pager_empty 3 none (by decide)⟩

/-! ## Claim about contentscanner.scan_for_sitemap -/

/-- C8: when `scan_for_sitemap` is called with `inspect_content=True` and
succeeds, it emits a sitemap entry exactly for the scanned pages with status
code 200 and an HTML mime type, and each entry carries the url and modified
time of its page, the priority from `priority_map` for the endpoint (the
default priority when the endpoint is not a key), and the given change
frequency. -/
theorem c8_scan_for_sitemap (tc : String → String)
    (priority_map : List (String × String)) (change_freq default_priority : String)
    (results : List ScannerResult) (entries : List SiteMapEntry)
    (h : scan_for_sitemap tc priority_map change_freq default_priority true results
      = Except.ok entries) :
    entries.map (fun e => (e.url, e.priority, e.modified, e.change_freq))
      = (results.filter (fun r => decide (r.status_code = 200) && r.is_html)).map
          (fun r => (r.url, (slookup priority_map r.endpoint).getD default_priority,
            r.last_modified, change_freq)) := by
  induction results generalizing entries with
  | nil =>
    simp only [scan_for_sitemap] at h
    cases h
    simp
  | cons r rest ih =>
    simp only [scan_for_sitemap, Bool.not_true, Bool.false_or] at h
    by_cases hk : (decide (r.status_code = 200) && r.is_html) = true
    · rw [if_pos hk] at h
      cases htr : resolve_title tc r with
      | error e =>
        rw [htr] at h
        simp at h
      | ok title =>
        rw [htr] at h
        cases hrec : scan_for_sitemap tc priority_map change_freq default_priority
            true rest with
        | error e =>
          rw [hrec] at h
          simp at h
        | ok tail =>
          rw [hrec] at h
          simp only [] at h
          cases h
          have hrest := ih tail hrec
          simp [List.filter_cons, hk, hrest]
    · rw [if_neg hk] at h
      have hk2 : (decide (r.status_code = 200) && r.is_html) = false := by
        revert hk
        cases decide (r.status_code = 200) && r.is_html <;> simp
      have hrest := ih entries h
      simp [List.filter_cons, hk2, hrest]

/-- Witness for C8 on a concrete scan with one HTML 200 page and one
filtered-out 404 page. -/
theorem c8_witness :
    scan_for_sitemap (fun s => s) [("main.home", "1.0")] "daily" "0.5" true
      [{ endpoint := "main.home", url := "https://x/", status_code := 200,
         mime_type := "text/html", title := some "Home", last_modified := 5 },
       { endpoint := "main.api", url := "https://x/api", status_code := 404,
         mime_type := "application/json", title := none, last_modified := 6 }]
      = Except.ok [{ url := "https://x/", modified := 5, change_freq := "daily",
                     priority := "1.0", title := "Home" }]
    ∧ ([{ url := "https://x/", modified := 5, change_freq := "daily",
          priority := "1.0", title := "Home" }] : List SiteMapEntry).map
        (fun e => (e.url, e.priority, e.modified, e.change_freq))
      = (([{ endpoint := "main.home", url := "https://x/", status_code := 200,
             mime_type := "text/html", title := some "Home", last_modified := 5 },
           { endpoint := "main.api", url := "https://x/api", status_code := 404,
             mime_type := "application/json", title := none, last_modified := 6 }]
          : List ScannerResult).filter
            (fun r => decide (r.status_code = 200) && r.is_html)).map
          (fun r => (r.url, (slookup [("main.home", "1.0")] r.endpoint).getD "0.5",
            r.last_modified, "daily")) :=
  ⟨rfl, c8_scan_for_sitemap (fun s => s) [("main.home", "1.0")] "daily" "0.5"
    _ _ rfl⟩

/-! ## Claims about imageutil -/

/-- Helper: Python `int()` of a non-negative rational is the floor. -/
theorem pyIntQ_nonneg_eq_floor {q : ℚ} (h : 0 ≤ q) : pyIntQ q = ⌊q⌋ :=
  if_pos h

/-- Helper: Python `int()` of a natural number is itself. -/
theorem pyIntQ_natCast (n : ℕ) : pyIntQ (n : ℚ) = n := by
  rw [pyIntQ_nonneg_eq_floor (by positivity), Int.floor_natCast]

/-- C7: `resize_image_to_fit` produces dimensions that fit inside the
destination rectangle, with one dimension exactly matching the target. -/
theorem c7_resize_image_to_fit (src_w src_h dest_w dest_h : ℕ)
    (hsw : 1 ≤ src_w) (hsh : 1 ≤ src_h) (hdw : 1 ≤ dest_w) (hdh : 1 ≤ dest_h) :
    (resize_image_to_fit src_w src_h dest_w dest_h).1 ≤ (dest_w : Int)
    ∧ (resize_image_to_fit src_w src_h dest_w dest_h).2 ≤ (dest_h : Int)
    ∧ ((resize_image_to_fit src_w src_h dest_w dest_h).1 = (dest_w : Int)
      ∨ (resize_image_to_fit src_w src_h dest_w dest_h).2 = (dest_h : Int)) := by
  have hsw0 : (0 : ℚ) < (src_w : ℚ) := by exact_mod_cast by omega
  have hsh0 : (0 : ℚ) < (src_h : ℚ) := by exact_mod_cast by omega
  have hdw0 : (0 : ℚ) < (dest_w : ℚ) := by exact_mod_cast by omega
  have hdh0 : (0 : ℚ) < (dest_h : ℚ) := by exact_mod_cast by omega
  simp only [resize_image_to_fit]
  by_cases hr : (src_w : ℚ) / (src_h : ℚ) < (dest_w : ℚ) / (dest_h : ℚ)
  · rw [if_pos hr]
    dsimp only
    have hcross := (div_lt_div_iff₀ hsh0 hdh0).mp hr
    have hq0 : (0 : ℚ) ≤ (src_w : ℚ) * ((dest_h : ℚ) / (src_h : ℚ)) := by positivity
    have hqlt : (src_w : ℚ) * ((dest_h : ℚ) / (src_h : ℚ)) < (dest_w : ℚ) := by
      rw [← mul_div_assoc]
      refine (div_lt_iff₀ hsh0).mpr ?_
      linarith
    have h1 : pyIntQ ((src_w : ℚ) * ((dest_h : ℚ) / (src_h : ℚ))) ≤ (dest_w : Int) := by
      rw [pyIntQ_nonneg_eq_floor hq0]
      have := Int.floor_le_floor (le_of_lt hqlt)
      rwa [Int.floor_natCast] at this
    exact ⟨h1, by rw [pyIntQ_natCast], Or.inr (by rw [pyIntQ_natCast])⟩
  · rw [if_neg hr]
    dsimp only
    have hle : (dest_w : ℚ) / (dest_h : ℚ) ≤ (src_w : ℚ) / (src_h : ℚ) := not_lt.mp hr
    have hcross := (div_le_div_iff₀ hdh0 hsh0).mp hle
    have hq0 : (0 : ℚ) ≤ (src_h : ℚ) * ((dest_w : ℚ) / (src_w : ℚ)) := by positivity
    have hqle : (src_h : ℚ) * ((dest_w : ℚ) / (src_w : ℚ)) ≤ (dest_h : ℚ) := by
      rw [← mul_div_assoc]
      refine (div_le_iff₀ hsw0).mpr ?_
      linarith
    have h2 : pyIntQ ((src_h : ℚ) * ((dest_w : ℚ) / (src_w : ℚ))) ≤ (dest_h : Int) := by
      rw [pyIntQ_nonneg_eq_floor hq0]
      have := Int.floor_le_floor hqle
      rwa [Int.floor_natCast] at this
    exact ⟨by rw [pyIntQ_natCast], h2, Or.inl (by rw [pyIntQ_natCast])⟩

/-- Witness for C7 on a wide 100x50 source and 30x30 target. -/
theorem c7_witness :
    (1 ≤ 100 ∧ 1 ≤ 50 ∧ 1 ≤ 30)
    ∧ ((resize_image_to_fit 100 50 30 30).1 ≤ (30 : Int)
      ∧ (resize_image_to_fit 100 50 30 30).2 ≤ (30 : Int)
      ∧ ((resize_image_to_fit 100 50 30 30).1 = (30 : Int)
        ∨ (resize_image_to_fit 100 50 30 30).2 = (30 : Int))) :=
  ⟨⟨by decide, by decide, by decide⟩,
    c7_resize_image_to_fit 100 50 30 30 (by decide) (by decide) (by decide) (by decide)⟩

/-- Helper: when the source strictly exceeds the destination in some
dimension, the crop branches produce exactly the destination rectangle for a
crop box of destination extent with non-negative offsets. -/
theorem crop_branch_dims_eq (src_w src_h dest_w dest_h : ℕ)
    (scaled_w scaled_h left top right bottom : ℚ)
    (hbig : dest_w < src_w ∨ dest_h < src_h)
    (hleft : 0 ≤ left) (htop : 0 ≤ top)
    (hright : right = left + (dest_w : ℚ)) (hbottom : bottom = top + (dest_h : ℚ)) :
    crop_branch_dims src_w src_h dest_w dest_h scaled_w scaled_h left top right bottom
      = ((dest_w : Int), (dest_h : Int)) := by
  have hcond : src_w > dest_w ∨ src_h > dest_h := hbig
  subst hright
  subst hbottom
  rw [crop_branch_dims, if_pos hcond]
  have hw : pyIntQ (left + (dest_w : ℚ)) - pyIntQ left = (dest_w : Int) := by
    rw [pyIntQ_nonneg_eq_floor (by positivity), pyIntQ_nonneg_eq_floor hleft,
      Int.floor_add_nat]
    omega
  have hh : pyIntQ (top + (dest_h : ℚ)) - pyIntQ top = (dest_h : Int) := by
    rw [pyIntQ_nonneg_eq_floor (by positivity), pyIntQ_nonneg_eq_floor htop,
      Int.floor_add_nat]
    omega
  rw [hw, hh]

/-- C6 counterexample: with `pad_when_tall=False`, a 10x10 source with a
20x20 target is returned unchanged at 10x10, not at the target rectangle
`(int(dest_w), int(dest_h)) = (20, 20)`. -/
theorem c6_counterexample :
    resize_crop_image 10 10 20 20 false none none = ((10 : Int), (10 : Int))
    ∧ resize_crop_image 10 10 20 20 false none none ≠ ((20 : Int), (20 : Int)) := by
  have h : resize_crop_image 10 10 20 20 false none none = ((10 : Int), (10 : Int)) := by
    norm_num [resize_crop_image, crop_branch_dims]
  refine ⟨h, ?_⟩
  rw [h]
  decide

/-- C6 (amended): for positive source and target dimensions where the source
strictly exceeds the target in at least one dimension, `resize_crop_image`
with `pad_when_tall=False` returns an image of exactly
`(int(dest_w), int(dest_h))`; the counterexample shows that when the source
already fits inside the target rectangle the original image is returned
unchanged instead. -/
theorem c6_amended_resize_crop_image (src_w src_h dest_w dest_h : ℕ)
    (dest_top dest_left : Option ℚ)
    (hsw : 1 ≤ src_w) (hsh : 1 ≤ src_h) (hdw : 1 ≤ dest_w) (hdh : 1 ≤ dest_h)
    (hbig : dest_w < src_w ∨ dest_h < src_h) :
    resize_crop_image src_w src_h dest_w dest_h false dest_top dest_left
      = ((dest_w : Int), (dest_h : Int)) := by
  have hsw0 : (0 : ℚ) < (src_w : ℚ) := by exact_mod_cast by omega
  have hsh0 : (0 : ℚ) < (src_h : ℚ) := by exact_mod_cast by omega
  have hdw0 : (0 : ℚ) < (dest_w : ℚ) := by exact_mod_cast by omega
  have hdh0 : (0 : ℚ) < (dest_h : ℚ) := by exact_mod_cast by omega
  simp only [resize_crop_image]
  by_cases hr : (src_w : ℚ) / (src_h : ℚ) < (dest_w : ℚ) / (dest_h : ℚ)
  · rw [if_pos hr, if_neg (by simp)]
    have hcross := (div_lt_div_iff₀ hsh0 hdh0).mp hr
    have hsc : (dest_h : ℚ) ≤ (src_h : ℚ) * ((dest_w : ℚ) / (src_w : ℚ)) := by
      rw [← mul_div_assoc]
      refine le_of_lt ((lt_div_iff₀ hsw0).mpr ?_)
      linarith
    rcases dest_top with _ | t
    · exact crop_branch_dims_eq _ _ _ _ _ _ _ _ _ _ hbig le_rfl
        (div_nonneg (by linarith) (by norm_num)) (by ring) rfl
    · dsimp only
      split_ifs with h1 h2
      · exact crop_branch_dims_eq _ _ _ _ _ _ _ _ _ _ hbig le_rfl le_rfl
          (by ring) rfl
      · exact crop_branch_dims_eq _ _ _ _ _ _ _ _ _ _ hbig le_rfl
          (by linarith) (by ring) rfl
      · exact crop_branch_dims_eq _ _ _ _ _ _ _ _ _ _ hbig le_rfl
          (not_lt.mp h1) (by ring) rfl
  · rw [if_neg hr, if_neg (by simp)]
    have hle : (dest_w : ℚ) / (dest_h : ℚ) ≤ (src_w : ℚ) / (src_h : ℚ) := not_lt.mp hr
    have hcross := (div_le_div_iff₀ hdh0 hsh0).mp hle
    have hsc : (dest_w : ℚ) ≤ (src_w : ℚ) * ((dest_h : ℚ) / (src_h : ℚ)) := by
      rw [← mul_div_assoc]
      refine (le_div_iff₀ hsh0).mpr ?_
      linarith
    rcases dest_left with _ | t
    · exact crop_branch_dims_eq _ _ _ _ _ _ _ _ _ _ hbig
        (div_nonneg (by linarith) (by norm_num)) le_rfl rfl (by ring)
    · dsimp only
      split_ifs with h1 h2
      · exact crop_branch_dims_eq _ _ _ _ _ _ _ _ _ _ hbig le_rfl le_rfl
          rfl (by ring)
      · exact crop_branch_dims_eq _ _ _ _ _ _ _ _ _ _ hbig
          (by linarith) le_rfl rfl (by ring)
      · exact crop_branch_dims_eq _ _ _ _ _ _ _ _ _ _ hbig
          (not_lt.mp h1) le_rfl rfl (by ring)

/-- Witness for the amended C6 on a 40x30 source and a 20x10 target. -/
theorem c6_witness :
    ((20 < 40 ∨ 10 < 30) ∧ 1 ≤ 40 ∧ 1 ≤ 30 ∧ 1 ≤ 20 ∧ 1 ≤ 10)
    ∧ resize_crop_image 40 30 20 10 false none none = ((20 : Int), (10 : Int)) :=
  ⟨⟨Or.inl (by decide), by decide, by decide, by decide, by decide⟩,
    c6_amended_resize_crop_image 40 30 20 10 none none (by decide) (by decide)
      (by decide) (by decide) (Or.inl (by decide))⟩

/-! ## Claims about yamldata.import_model -/

/-- Helper: a successful duplicate check means the yaml names and the python
names of the field list are each free of duplicates (and avoid the
accumulators). -/
theorem check_duplicate_fields_ok {fields : List ImportField} {s1 s2 : List String}
    (h : check_duplicate_fields s1 s2 fields = Except.ok ()) :
    ((fields.map (fun f => f.name)).Nodup
      ∧ ∀ x ∈ fields.map (fun f => f.name), x ∉ s1)
    ∧ ((fields.map ImportField.python_name).Nodup
      ∧ ∀ x ∈ fields.map ImportField.python_name, x ∉ s2) := by
  induction fields generalizing s1 s2 with
  | nil => simp
  | cons f rest ih =>
    simp only [check_duplicate_fields] at h
    by_cases h1 : f.name ∈ s1
    · rw [if_pos h1] at h
      simp at h
    rw [if_neg h1] at h
    by_cases h2 : f.python_name ∈ s2
    · rw [if_pos h2] at h
      simp at h
    rw [if_neg h2] at h
    obtain ⟨⟨hn1, hn2⟩, hp1, hp2⟩ := ih h
    refine ⟨⟨?_, ?_⟩, ?_, ?_⟩
    · simp only [List.map_cons, List.nodup_cons]
      exact ⟨fun hmem => hn2 f.name hmem (List.mem_cons_self _ _), hn1⟩
    · intro x hx
      simp only [List.map_cons, List.mem_cons] at hx
      rcases hx with rfl | hx
      · exact h1
      · exact fun hxs => hn2 x hx (List.mem_cons_of_mem _ hxs)
    · simp only [List.map_cons, List.nodup_cons]
      exact ⟨fun hmem => hp2 f.python_name hmem (List.mem_cons_self _ _), hp1⟩
    · intro x hx
      simp only [List.map_cons, List.mem_cons] at hx
      rcases hx with rfl | hx
      · exact h2
      · exact fun hxs => hp2 x hx (List.mem_cons_of_mem _ hxs)

/-- Helper: a successful required-field check means every required key is
present in the yaml dict. -/
theorem check_required_fields_ok {mn ident : String} {req : List String}
    {yaml : YamlDict} (h : check_required_fields mn ident req yaml = Except.ok ())
    {k : String} (hk : k ∈ req) : (slookup yaml k).isSome = true := by
  unfold check_required_fields at h
  cases hf : req.find? (fun k => (slookup yaml k).isNone) with
  | some k0 =>
    rw [hf] at h
    simp at h
  | none =>
    have h2 := List.find?_eq_none.mp hf k hk
    cases hsl : slookup yaml k with
    | none =>
      rw [hsl] at h2
      simp at h2
    | some v => simp [hsl]

/-- Helper: a successful unknown-field check means every yaml key is a
declared field key. -/
theorem check_unknown_fields_ok {mn ident : String} {keys : List String}
    {yaml : YamlDict} (h : check_unknown_fields mn ident keys yaml = Except.ok ())
    {k : String} (hk : k ∈ yaml.map Prod.fst) : k ∈ keys := by
  unfold check_unknown_fields at h
  cases hf : (yaml.map Prod.fst).find? (fun k => !(keys.contains k)) with
  | some k0 =>
    rw [hf] at h
    simp at h
  | none =>
    have h2 := List.find?_eq_none.mp hf k hk
    simpa using h2

/-- Helper: when the pre-query phase of `import_model` succeeds, the
duplicate check passed, every required (non-constant, non-optional) field is
present in the yaml dict, and every yaml key is a declared non-constant field
name. -/
theorem import_model_pre_ok_checks {model_name : String} {fields : List ImportField}
    {yaml : YamlDict} {pre : PreData}
    (h : import_model_pre model_name fields yaml = Except.ok pre) :
    check_duplicate_fields [] [] fields = Except.ok ()
    ∧ (∀ f ∈ fields, truthyOpt f.constant_value = false → f.optional = false →
        (slookup yaml f.name).isSome = true)
    ∧ (∀ k ∈ yaml.map Prod.fst,
        k ∈ (fields.filter (fun f => !truthyOpt f.constant_value)).map
          (fun f => f.name)) := by
  simp only [import_model_pre] at h
  split at h
  · simp at h
  next hdup =>
    split at h
    · simp at h
    next data hbd =>
      split at h
      · simp at h
      next hid =>
        split at h
        · simp at h
        next hrq =>
          split at h
          · simp at h
          next hun =>
            refine ⟨hdup, ?_, ?_⟩
            · intro f hf hc ho
              refine check_required_fields_ok hrq ?_
              refine List.mem_map.mpr ⟨f, List.mem_filter.mpr ⟨hf, ?_⟩, rfl⟩
              rw [hc, ho]
              rfl
            · intro k hk
              exact check_unknown_fields_ok hun hk

/-- C4: `import_model` raises an error before querying or modifying the
database whenever the field list has two fields with the same yaml name or
the same python name, or a required (non-optional, non-constant) field is
absent from the yaml dict, or the yaml dict has a key that is not a declared
non-constant field name: in each case the result is an error with no query,
no session add and no setattr performed. -/
theorem c4_import_model_validation (model_name : String) (fields : List ImportField)
    (yaml : YamlDict) (db : List Inst) (insert_only : Bool)
    (h : ¬ (fields.map (fun f => f.name)).Nodup
       ∨ ¬ (fields.map ImportField.python_name).Nodup
       ∨ (∃ f ∈ fields, truthyOpt f.constant_value = false ∧ f.optional = false
            ∧ slookup yaml f.name = none)
       ∨ (∃ k ∈ yaml.map Prod.fst,
            k ∉ (fields.filter (fun f => !truthyOpt f.constant_value)).map
              (fun f => f.name))) :
    ∃ e, import_model model_name fields yaml db insert_only
      = (Except.error e, { queried := false, added := false, setattrs := [] }) := by
  cases hpre : import_model_pre model_name fields yaml with
  | error e => exact ⟨e, by simp [import_model, hpre]⟩
  | ok pre =>
    exfalso
    obtain ⟨hdup, hreq, hunk⟩ := import_model_pre_ok_checks hpre
    rcases h with h | h | h | h
    · exact h (check_duplicate_fields_ok hdup).1.1
    · exact h (check_duplicate_fields_ok hdup).2.1
    · obtain ⟨f, hf, hc, ho, hs⟩ := h
      have h2 := hreq f hf hc ho
      rw [hs] at h2
      simp at h2
    · obtain ⟨k, hk, hnk⟩ := h
      exact hnk (hunk k hk)

/-- Witness for C4: a single required field that is absent from the yaml
dict. -/
theorem c4_witness :
    (¬ (([{ name := "name", data_type := STR }] : List ImportField).map
          (fun f => f.name)).Nodup
      ∨ ¬ (([{ name := "name", data_type := STR }] : List ImportField).map
          ImportField.python_name).Nodup
      ∨ (∃ f ∈ ([{ name := "name", data_type := STR }] : List ImportField),
          truthyOpt f.constant_value = false ∧ f.optional = false
          ∧ slookup ([] : YamlDict) f.name = none)
      ∨ (∃ k ∈ ([] : YamlDict).map Prod.fst,
          k ∉ (([{ name := "name", data_type := STR }] : List ImportField).filter
            (fun f => !truthyOpt f.constant_value)).map (fun f => f.name)))
    ∧ ∃ e, import_model "M" [{ name := "name", data_type := STR }] [] [] false
        = (Except.error e, { queried := false, added := false, setattrs := [] }) :=
  ⟨Or.inr (Or.inr (Or.inl ⟨{ name := "name", data_type := STR }, by simp, rfl, rfl, rfl⟩)),
    c4_import_model_validation "M" [{ name := "name", data_type := STR }] [] [] false
      (Or.inr (Or.inr (Or.inl ⟨{ name := "name", data_type := STR }, by simp,
        rfl, rfl, rfl⟩)))⟩

/-- C3: when the pre-query validation succeeds, the identifier filters are
built, and exactly one instance in the database matches all identifier-field
values, `import_model` with `insert_only=True` returns that existing instance
unchanged: no attribute is written and no new instance is added to the
session. -/
theorem c3_import_model_insert_only (model_name : String) (fields : List ImportField)
    (yaml : YamlDict) (db : List Inst) (pre : PreData)
    (filters : List (String × Value)) (inst : Inst)
    (hpre : import_model_pre model_name fields yaml = Except.ok pre)
    (hfil : build_filters pre.data pre.identifier_keys = Except.ok filters)
    (hfound : db.filter (matches_filters filters) = [inst]) :
    import_model model_name fields yaml db true
      = (Except.ok inst, { queried := true, added := false, setattrs := [] }) := by
  simp [import_model, hpre, hfil, one_or_none, hfound, import_model_post]

/-- Witness for C3: one identifier field, a matching instance already in the
database, `insert_only=True`. -/
theorem c3_witness :
    import_model_pre "M"
        [{ name := "name", data_type := STR, identifier := true },
         { name := "age", data_type := INT }]
        [("name", Value.vstr "x"), ("age", Value.vint 3)]
      = Except.ok { data := [("name", Value.vstr "x"), ("age", Value.vint 3)],
                    identifier_keys := [("name", "name")], identifier := "x" }
    ∧ build_filters [("name", Value.vstr "x"), ("age", Value.vint 3)]
        [("name", "name")] = Except.ok [("name", Value.vstr "x")]
    ∧ ([[("name", Value.vstr "x"), ("age", Value.vint 5)]] : List Inst).filter
        (matches_filters [("name", Value.vstr "x")])
      = [[("name", Value.vstr "x"), ("age", Value.vint 5)]]
    ∧ import_model "M"
        [{ name := "name", data_type := STR, identifier := true },
         { name := "age", data_type := INT }]
        [("name", Value.vstr "x"), ("age", Value.vint 3)]
        [[("name", Value.vstr "x"), ("age", Value.vint 5)]] true
      = (Except.ok [("name", Value.vstr "x"), ("age", Value.vint 5)],
         { queried := true, added := false, setattrs := [] }) :=
  ⟨rfl, rfl, by decide,
    c3_import_model_insert_only "M"
      [{ name := "name", data_type := STR, identifier := true },
       { name := "age", data_type := INT }]
      [("name", Value.vstr "x"), ("age", Value.vint 3)]
      [[("name", Value.vstr "x"), ("age", Value.vint 5)]]
      { data := [("name", Value.vstr "x"), ("age", Value.vint 3)],
        identifier_keys := [("name", "name")], identifier := "x" }
      [("name", Value.vstr "x")]
      [("name", Value.vstr "x"), ("age", Value.vint 5)]
      rfl rfl (by decide)⟩
